import Mathlib

/-!
Verification of the aws-ebs-csi-driver repository slice: the parameter E2E
test file (`tests/e2e`), the sidecar image-digest release script
(`hack/release-scripts/get-latest-sidecar-images`), the build Makefile and
the generated Kubernetes client mock (`pkg/driver/mock_k8s_client.go`).

Each Go/bash/Make construct the claims refer to is embedded shallowly as an
executable Lean definition, translated from the source; theorems settle the
spec's claims about those definitions.
-/

/-! ## AWS EC2 model (aws-sdk-go-v2 surface used by the E2E file) -/

/-- An EC2 filter, as in `types.Filter`: a name and a list of values. -/
structure Ec2Filter where
  filterName : String
  values : List String
deriving DecidableEq, Repr

/-- Input of `ec2.DescribeVolumes`, as in `ec2.DescribeVolumesInput`:
the list of filters supplied with the request. -/
structure DescribeVolumesInput where
  filters : List Ec2Filter
deriving DecidableEq, Repr

/-- A volume returned by `DescribeVolumes` (only its identity matters to the
tests: they assert on the cardinality of the returned list). -/
structure Ec2Volume where
  volumeId : String
deriving DecidableEq, Repr

/-- The EC2 client as seen by the tests: `DescribeVolumes` either succeeds
with a list of volumes or fails with an error. -/
def Ec2Api : Type := DescribeVolumesInput → Except String (List Ec2Volume)

/-! ## The three AWS-tag-verification ValidateFuncs (part_000) -/

/-- The `DescribeVolumesInput` built by the `extraCreateMetadata` test's
`ValidateFunc` (part_000 lines 87-94): one filter on the PVC-namespace tag,
valued at the test namespace's name. -/
def extraCreateMetadataDescribeInput (nsName : String) : DescribeVolumesInput :=
  { filters := [{ filterName := "tag:kubernetes.io/created-for/pvc/namespace"
                  values := [nsName] }] }

/-- The `DescribeVolumesInput` built by the `k8sTagClusterId` test's
`ValidateFunc` (part_000 lines 145-152): one filter on the cluster tag. -/
def k8sTagClusterIdDescribeInput : DescribeVolumesInput :=
  { filters := [{ filterName := "tag:kubernetes.io/cluster/e2e-param-test"
                  values := ["owned"] }] }

/-- The `DescribeVolumesInput` built by the `extraVolumeTags` test's
`ValidateFunc` (part_000 lines 203-210): one filter on the extra tag. -/
def extraVolumeTagsDescribeInput : DescribeVolumesInput :=
  { filters := [{ filterName := "tag:TestKey"
                  values := ["TestValue"] }] }

/-- `ValidateFunc` of the `extraCreateMetadata` test (part_000 lines 85-97):
call `DescribeVolumes` with the namespace-tag filter, pass iff the call
succeeded (`Expect(err).NotTo(HaveOccurred())`) and at least one volume was
returned (`Expect(len(result.Volumes)).To(BeNumerically(">=", 1))`). -/
def extraCreateMetadataValidate (ec2 : Ec2Api) (nsName : String) : Bool :=
  match ec2 (extraCreateMetadataDescribeInput nsName) with
  | Except.ok volumes => decide (1 ≤ volumes.length)
  | Except.error _ => false

/-- `ValidateFunc` of the `k8sTagClusterId` test (part_000 lines 143-155). -/
def k8sTagClusterIdValidate (ec2 : Ec2Api) : Bool :=
  match ec2 k8sTagClusterIdDescribeInput with
  | Except.ok volumes => decide (1 ≤ volumes.length)
  | Except.error _ => false

/-- `ValidateFunc` of the `extraVolumeTags` test (part_000 lines 201-213). -/
def extraVolumeTagsValidate (ec2 : Ec2Api) : Bool :=
  match ec2 extraVolumeTagsDescribeInput with
  | Except.ok volumes => decide (1 ≤ volumes.length)
  | Except.error _ => false

/-! ## EC2 call-site inventory (for the EC2-surface claim) -/

/-- `f` is a tag-based filter: its name begins with the string "tag:". -/
def isTagFilter (f : Ec2Filter) : Bool :=
  "tag:".data.isPrefixOf f.filterName.data

/-- One AWS EC2 API call site occurring in the supplied files: the operation
invoked and the request it is invoked with. -/
structure Ec2CallSite where
  operation : String
  input : DescribeVolumesInput
deriving DecidableEq, Repr

/-- Every AWS EC2 API call site in the supplied files, in file order: the
three `ec2Client.DescribeVolumes` calls of part_000 (lines 87, 145, 203).
No other file in the slice touches the EC2 API. `nsName` is the test
namespace name flowing into the first request's filter value. -/
def ec2CallSites (nsName : String) : List Ec2CallSite :=
  [ { operation := "DescribeVolumes", input := extraCreateMetadataDescribeInput nsName }
  , { operation := "DescribeVolumes", input := k8sTagClusterIdDescribeInput }
  , { operation := "DescribeVolumes", input := extraVolumeTagsDescribeInput } ]

/-! ## Theorems for the tag-verification claims -/

/-- C1: each of the three AWS-tag-verification ValidateFuncs calls
`DescribeVolumes` with exactly one tag filter, and the validation passes if
and only if the `DescribeVolumes` call succeeds and the returned volume list
has length at least 1. -/
theorem tag_verification_validate_spec (ec2 : Ec2Api) (nsName : String) :
    ((extraCreateMetadataDescribeInput nsName).filters.length = 1
      ∧ (extraCreateMetadataValidate ec2 nsName = true ↔
          ∃ volumes, ec2 (extraCreateMetadataDescribeInput nsName) = Except.ok volumes
            ∧ 1 ≤ volumes.length))
    ∧ (k8sTagClusterIdDescribeInput.filters.length = 1
      ∧ (k8sTagClusterIdValidate ec2 = true ↔
          ∃ volumes, ec2 k8sTagClusterIdDescribeInput = Except.ok volumes
            ∧ 1 ≤ volumes.length))
    ∧ (extraVolumeTagsDescribeInput.filters.length = 1
      ∧ (extraVolumeTagsValidate ec2 = true ↔
          ∃ volumes, ec2 extraVolumeTagsDescribeInput = Except.ok volumes
            ∧ 1 ≤ volumes.length)) := by
  refine ⟨⟨rfl, ?_⟩, ⟨rfl, ?_⟩, ⟨rfl, ?_⟩⟩
  · unfold extraCreateMetadataValidate
    cases h : ec2 (extraCreateMetadataDescribeInput nsName) with
    | ok volumes =>
        simp only [decide_eq_true_eq]
        exact ⟨fun hl => ⟨volumes, rfl, hl⟩,
          fun ⟨v, hv, hl⟩ => by cases hv; exact hl⟩
    | error e =>
        simp only [Bool.false_eq_true, false_iff]
        rintro ⟨v, hv, -⟩
        cases hv
  · unfold k8sTagClusterIdValidate
    cases h : ec2 k8sTagClusterIdDescribeInput with
    | ok volumes =>
        simp only [decide_eq_true_eq]
        exact ⟨fun hl => ⟨volumes, rfl, hl⟩,
          fun ⟨v, hv, hl⟩ => by cases hv; exact hl⟩
    | error e =>
        simp only [Bool.false_eq_true, false_iff]
        rintro ⟨v, hv, -⟩
        cases hv
  · unfold extraVolumeTagsValidate
    cases h : ec2 extraVolumeTagsDescribeInput with
    | ok volumes =>
        simp only [decide_eq_true_eq]
        exact ⟨fun hl => ⟨volumes, rfl, hl⟩,
          fun ⟨v, hv, hl⟩ => by cases hv; exact hl⟩
    | error e =>
        simp only [Bool.false_eq_true, false_iff]
        rintro ⟨v, hv, -⟩
        cases hv

/-! ## Kubernetes API call-site inventory of the parameter E2E file -/

/-- A Kubernetes client verb.  The typed client used by the test file offers
all of these; the inventory below records which ones the file actually
issues. -/
inductive K8sVerb
  | get
  | list
  | create
  | update
  | patch
  | delete
  | watch
deriving DecidableEq, Repr

/-- Whether a call addresses a namespaced resource (and which namespace) or
a cluster-scoped resource. -/
inductive K8sScope
  | namespaced (ns : String)
  | clusterScoped
deriving DecidableEq, Repr

/-- One Kubernetes API call site issued directly by the parameter E2E test
file: the `[param:...]` label of the enclosing test, the verb, the resource,
the scope, the object name (Get) and the label selector (List). -/
structure K8sCallSite where
  test : String
  verb : K8sVerb
  resource : String
  scope : K8sScope
  objectName : String
  selector : String
deriving DecidableEq, Repr

/-- `Pods("kube-system").List` with a label selector. -/
def listPodsKubeSystem (test selector : String) : K8sCallSite :=
  { test := test, verb := K8sVerb.list, resource := "pods"
    scope := K8sScope.namespaced "kube-system", objectName := "", selector := selector }

/-- `Deployments("kube-system").Get "ebs-csi-controller"`. -/
def getControllerDeployment (test : String) : K8sCallSite :=
  { test := test, verb := K8sVerb.get, resource := "deployments"
    scope := K8sScope.namespaced "kube-system", objectName := "ebs-csi-controller"
    selector := "" }

/-- `DaemonSets("kube-system").Get "ebs-csi-node"`. -/
def getNodeDaemonSet (test : String) : K8sCallSite :=
  { test := test, verb := K8sVerb.get, resource := "daemonsets"
    scope := K8sScope.namespaced "kube-system", objectName := "ebs-csi-node"
    selector := "" }

/-- Every Kubernetes API call issued directly by the parameter E2E test file
(part_000), in file order, transcribed call site by call site.  Calls made
internally by the shared `testsuites`/`framework` helpers are not issued by
this file and are not listed. -/
def parameterE2eK8sCalls : List K8sCallSite :=
  [ listPodsKubeSystem "controllerMetrics" "app=ebs-csi-controller"          -- line 231
  , listPodsKubeSystem "nodeMetrics" "app=ebs-csi-node"                      -- line 265
  , listPodsKubeSystem "batching" "app=ebs-csi-controller"                   -- line 298
  , listPodsKubeSystem "controllerLoggingFormat" "app=ebs-csi-controller"    -- line 374
  , listPodsKubeSystem "nodeLoggingFormat" "app=ebs-csi-node"                -- line 408
  , listPodsKubeSystem "volumeModification" "app=ebs-csi-controller"         -- line 442
  , { test := "metadataLabeler", verb := K8sVerb.list, resource := "nodes"
      scope := K8sScope.clusterScoped, objectName := "", selector := "" }    -- line 472
  , listPodsKubeSystem "controllerLogLevel" "app=ebs-csi-controller"         -- line 506
  , listPodsKubeSystem "nodeLogLevel" "app=ebs-csi-node"                     -- line 540
  , listPodsKubeSystem "provisionerLogLevel" "app=ebs-csi-controller"        -- line 574
  , listPodsKubeSystem "attacherLogLevel" "app=ebs-csi-controller"           -- line 608
  , listPodsKubeSystem "snapshotterLogLevel" "app=ebs-csi-controller"        -- line 642
  , listPodsKubeSystem "resizerLogLevel" "app=ebs-csi-controller"            -- line 676
  , listPodsKubeSystem "nodeDriverRegistrarLogLevel" "app=ebs-csi-node"      -- line 710
  , listPodsKubeSystem "volumemodifierLogLevel" "app=ebs-csi-controller"     -- line 744
  , listPodsKubeSystem "metadataLabelerLogLevel" "app=ebs-csi-node"          -- line 778
  , { test := "storageClasses", verb := K8sVerb.get, resource := "storageclasses"
      scope := K8sScope.clusterScoped, objectName := "test-sc", selector := "" }  -- line 812
  , { test := "volumeSnapshotClasses", verb := K8sVerb.list
      resource := "volumesnapshotclasses", scope := K8sScope.clusterScoped
      objectName := "", selector := "" }                                     -- line 824
  , { test := "volumeSnapshotClasses", verb := K8sVerb.get
      resource := "volumesnapshotclasses", scope := K8sScope.clusterScoped
      objectName := "test-vsc", selector := "" }                             -- line 835
  , { test := "defaultStorageClass", verb := K8sVerb.get, resource := "storageclasses"
      scope := K8sScope.clusterScoped, objectName := "ebs-csi-default-sc"
      selector := "" }                                                       -- line 863
  , listPodsKubeSystem "reservedVolumeAttachments" "app=ebs-csi-node"        -- line 880
  , listPodsKubeSystem "volumeAttachLimit" "app=ebs-csi-node"                -- line 914
  , listPodsKubeSystem "hostNetwork" "app=ebs-csi-node"                      -- line 948
  , listPodsKubeSystem "debugLogs" "app=ebs-csi-controller"                  -- line 971
  , listPodsKubeSystem "sdkDebugLog" "app=ebs-csi-controller"                -- line 1005
  , { test := "useOldCSIDriver", verb := K8sVerb.get, resource := "csidrivers"
      scope := K8sScope.clusterScoped, objectName := "ebs.csi.aws.com"
      selector := "" }                                                       -- line 1039
  , listPodsKubeSystem "legacyXFS" "app=ebs-csi-node"                        -- line 1056
  , listPodsKubeSystem "selinux" "app=ebs-csi-node"                          -- line 1090
  , listPodsKubeSystem "fips" "app=ebs-csi-controller"                       -- line 1130
  , listPodsKubeSystem "snapshotterForceEnable" "app=ebs-csi-controller"     -- line 1161
  , listPodsKubeSystem "controllerUserAgentExtra" "app=ebs-csi-controller"   -- line 1191
  , { test := "controllerEnablePrometheusAnnotations", verb := K8sVerb.get
      resource := "services", scope := K8sScope.namespaced "kube-system"
      objectName := "ebs-csi-controller-metrics", selector := "" }           -- line 1225
  , { test := "nodeEnablePrometheusAnnotations", verb := K8sVerb.get
      resource := "services", scope := K8sScope.namespaced "kube-system"
      objectName := "ebs-csi-node-metrics", selector := "" }                 -- line 1245
  , { test := "controllerPodDisruptionBudget", verb := K8sVerb.get
      resource := "poddisruptionbudgets", scope := K8sScope.namespaced "kube-system"
      objectName := "ebs-csi-controller", selector := "" }                   -- line 1265
  , listPodsKubeSystem "nodeKubeletPath" "app=ebs-csi-node"                  -- line 1282
  , listPodsKubeSystem "nodeTolerateAllTaints" "app=ebs-csi-node"            -- line 1316
  , listPodsKubeSystem "provisionerLeaderElection" "app=ebs-csi-controller"  -- line 1346
  , listPodsKubeSystem "attacherLeaderElection" "app=ebs-csi-controller"     -- line 1380
  , listPodsKubeSystem "resizerLeaderElection" "app=ebs-csi-controller"      -- line 1414
  , { test := "nodeDisableMutation", verb := K8sVerb.get, resource := "clusterroles"
      scope := K8sScope.clusterScoped, objectName := "ebs-csi-node-role"
      selector := "" }                                                       -- line 1449
  , listPodsKubeSystem "nodeTerminationGracePeriod" "app=ebs-csi-node"       -- line 1477
  , listPodsKubeSystem "volumemodifierLeaderElection" "app=ebs-csi-controller" -- line 1501
  , getControllerDeployment "controllerReplicaCount"                          -- line 1531
  , getControllerDeployment "controllerNodeSelector"                          -- line 1542
  , getControllerDeployment "controllerTolerations"                           -- line 1553
  , getControllerDeployment "controllerPriorityClassName"                     -- line 1571
  , getControllerDeployment "controllerResources"                             -- line 1582
  , getControllerDeployment "controllerPodAnnotations"                        -- line 1600
  , getControllerDeployment "controllerPodLabels"                             -- line 1611
  , getControllerDeployment "controllerDeploymentAnnotations"                 -- line 1622
  , getControllerDeployment "controllerServiceAccountName"                    -- line 1633
  , { test := "controllerServiceAccountAnnotations", verb := K8sVerb.get
      resource := "serviceaccounts", scope := K8sScope.namespaced "kube-system"
      objectName := "ebs-csi-controller-sa", selector := "" }                -- line 1644
  , getControllerDeployment "controllerRevisionHistoryLimit"                  -- line 1655
  , getNodeDaemonSet "nodeNodeSelector"                                       -- line 1667
  , getNodeDaemonSet "nodeTolerations"                                        -- line 1678
  , getNodeDaemonSet "nodePriorityClassName"                                  -- line 1696
  , getNodeDaemonSet "nodeResources"                                          -- line 1707
  , getNodeDaemonSet "nodePodAnnotations"                                     -- line 1725
  , getNodeDaemonSet "nodeDaemonSetAnnotations"                               -- line 1736
  , getNodeDaemonSet "nodeRevisionHistoryLimit"                               -- line 1747
  , getNodeDaemonSet "nodeServiceAccountName"                                 -- line 1759
  , getControllerDeployment "provisionerResources"                            -- line 1770
  , getControllerDeployment "attacherResources"                               -- line 1787
  , getControllerDeployment "snapshotterResources"                            -- line 1804
  , getControllerDeployment "resizerResources"                                -- line 1821
  , getNodeDaemonSet "nodeDriverRegistrarResources"                           -- line 1838
  , getNodeDaemonSet "livenessProbeResources"                                 -- line 1855
  , getControllerDeployment "imageRepository"                                 -- line 1872
  , getControllerDeployment "imagePullPolicy"                                 -- line 1889
  , getControllerDeployment "customLabels"                                    -- line 1906
  , getNodeDaemonSet "customLabels"                                           -- line 1910
  , getControllerDeployment "controllerEnv"                                   -- line 1921
  , getNodeDaemonSet "nodeEnv"                                                -- line 1945
  , getControllerDeployment "controllerAffinity"                              -- line 1969
  , getNodeDaemonSet "nodeAffinity"                                           -- line 1981
  , getControllerDeployment "controllerTopologySpreadConstraints"             -- line 1993
  , getControllerDeployment "controllerSecurityContext"                       -- line 2005
  , getNodeDaemonSet "nodeSecurityContext"                                    -- line 2017
  , getControllerDeployment "controllerContainerSecurityContext"              -- line 2028
  , getControllerDeployment "controllerUpdateStrategy"                        -- line 2046
  , getNodeDaemonSet "nodeUpdateStrategy"                                     -- line 2057
  , getControllerDeployment "controllerVolumes"                               -- line 2068
  , getControllerDeployment "controllerVolumeMounts"                          -- line 2086
  , getNodeDaemonSet "nodeVolumes"                                            -- line 2110
  , getNodeDaemonSet "nodeVolumeMounts"                                       -- line 2128
  , getControllerDeployment "controllerAdditionalArgs"                        -- line 2152
  , getNodeDaemonSet "nodeAdditionalArgs"                                     -- line 2176
  , getControllerDeployment "provisionerAdditionalArgs"                       -- line 2200
  , getControllerDeployment "controllerDnsConfig"                             -- line 2224
  , getNodeDaemonSet "nodeDnsConfig"                                          -- line 2236
  , getControllerDeployment "controllerInitContainers"                        -- line 2248
  , getNodeDaemonSet "nodeInitContainers"                                     -- line 2266
  , getControllerDeployment "imagePullSecrets"                                -- line 2284
  , { test := "fullnameOverride", verb := K8sVerb.get, resource := "deployments"
      scope := K8sScope.namespaced "kube-system", objectName := "custom-ebs-controller"
      selector := "" }                                                       -- line 2302
  , { test := "controllerServiceMonitor", verb := K8sVerb.get
      resource := "servicemonitors", scope := K8sScope.namespaced "kube-system"
      objectName := "ebs-csi-controller", selector := "" }                   -- line 2313
  , { test := "nodeServiceMonitor", verb := K8sVerb.get
      resource := "servicemonitors", scope := K8sScope.namespaced "kube-system"
      objectName := "ebs-csi-node", selector := "" } ]                       -- line 2324

/-- The call is a read-only Get or List. -/
def isReadOnlyCall (c : K8sCallSite) : Bool :=
  c.verb == K8sVerb.get || c.verb == K8sVerb.list

/-- If the call is namespace-scoped, it targets `kube-system`. -/
def targetsKubeSystemIfNamespaced (c : K8sCallSite) : Bool :=
  match c.scope with
  | K8sScope.namespaced ns => ns == "kube-system"
  | K8sScope.clusterScoped => true

/-- C2: every Kubernetes API call issued directly by the parameter E2E test
file is a read-only Get or List (never Create, Update, Patch or Delete),
and every namespace-scoped call in the file targets the fixed namespace
"kube-system". -/
theorem parameter_e2e_k8s_calls_read_only_kube_system :
    parameterE2eK8sCalls.all
      (fun c => isReadOnlyCall c && targetsKubeSystemIfNamespaced c) = true := by
  rfl

/-- C3: every EC2 call site in the supplied files invokes `DescribeVolumes`,
and every filter of every such request is a tag filter (its name begins
with "tag:"). -/
theorem ec2_surface_describeVolumes_tag_filters (nsName : String) :
    (ec2CallSites nsName).all
      (fun c => c.operation == "DescribeVolumes"
        && c.input.filters.all isTagFilter) = true := by
  rfl

/-! ## Pod/container model and the [param:debugLogs] test (part_000 960-992) -/

/-- A container of a pod spec: its name and its argument list (the only
fields the debugLogs test inspects). -/
structure Container where
  name : String
  args : List String
deriving DecidableEq, Repr

/-- A pod: its list of containers. -/
structure Pod where
  name : String
  containers : List Container
deriving DecidableEq, Repr

/-- The inner scan of the debugLogs test (part_000 lines 980-986): the
container's args contain "-v=7" or "--v=7". -/
def containerHasMaxVerbosity (c : Container) : Bool :=
  c.args.contains "-v=7" || c.args.contains "--v=7"

/-- Verdict of the debugLogs test body (part_000 lines 970-991), as a
function of the pod list returned by listing pods labeled
`app=ebs-csi-controller` in `kube-system`: the list must be non-empty
(`Expect(pods.Items).NotTo(BeEmpty())`), and for every pod, every container
named "ebs-plugin" must pass the verbosity check; containers with any other
name are skipped by the `if container.Name == "ebs-plugin"` guard. -/
def debugLogsTestPasses (controllerPods : List Pod) : Bool :=
  !controllerPods.isEmpty
    && controllerPods.all (fun p =>
        p.containers.all (fun c =>
          if c.name == "ebs-plugin" then containerHasMaxVerbosity c else true))

/-- Replace the args of every container not named "ebs-plugin" according to
`g`, leaving "ebs-plugin" containers untouched. -/
def alterNonPluginArgs (g : Container → List String) (c : Container) : Container :=
  if c.name == "ebs-plugin" then c else { c with args := g c }

/-- Apply a container transformation to every container of a pod. -/
def mapPodContainers (h : Container → Container) (p : Pod) : Pod :=
  { p with containers := p.containers.map h }

/-- The per-container check of the debugLogs test is unchanged by rewriting
the args of containers not named "ebs-plugin". -/
theorem all_alterNonPluginArgs (g : Container → List String) (cs : List Container) :
    (cs.map (alterNonPluginArgs g)).all
        (fun c => if c.name == "ebs-plugin" then containerHasMaxVerbosity c else true)
      = cs.all
        (fun c => if c.name == "ebs-plugin" then containerHasMaxVerbosity c else true) := by
  induction cs with
  | nil => rfl
  | cons c cs ih =>
    simp only [List.map_cons, List.all_cons, ih]
    congr 1
    by_cases h : c.name = "ebs-plugin"
    · simp [alterNonPluginArgs, h]
    · simp [alterNonPluginArgs, h]

/-- The per-pod check of the debugLogs test is unchanged by rewriting the
args of containers not named "ebs-plugin". -/
theorem all_mapPodContainers_alter (g : Container → List String) (pods : List Pod) :
    (pods.map (mapPodContainers (alterNonPluginArgs g))).all
        (fun p => p.containers.all
          (fun c => if c.name == "ebs-plugin" then containerHasMaxVerbosity c else true))
      = pods.all
        (fun p => p.containers.all
          (fun c => if c.name == "ebs-plugin" then containerHasMaxVerbosity c else true)) := by
  induction pods with
  | nil => rfl
  | cons p rest ih =>
    simp only [List.map_cons, List.all_cons, ih]
    congr 1
    exact all_alterNonPluginArgs g p.containers

/-- C8: the debugLogs test passes iff controller pods exist and every
container named "ebs-plugin" has "-v=7" or "--v=7" among its args; and the
verdict is invariant under arbitrary rewriting of the args of every
container with any other name, so those containers never affect the
outcome. -/
theorem debugLogs_test_spec :
    (∀ controllerPods : List Pod,
      debugLogsTestPasses controllerPods = true ↔
        controllerPods ≠ [] ∧ ∀ p ∈ controllerPods, ∀ c ∈ p.containers,
          c.name = "ebs-plugin" → ("-v=7" ∈ c.args ∨ "--v=7" ∈ c.args))
    ∧ (∀ (controllerPods : List Pod) (g : Container → List String),
        debugLogsTestPasses
            (controllerPods.map (mapPodContainers (alterNonPluginArgs g)))
          = debugLogsTestPasses controllerPods) := by
  constructor
  · intro pods
    simp only [debugLogsTestPasses, containerHasMaxVerbosity, Bool.and_eq_true,
      Bool.not_eq_true', List.isEmpty_eq_false, List.all_eq_true]
    refine and_congr Iff.rfl (forall₂_congr fun p _ => forall₂_congr fun c _ => ?_)
    by_cases h : c.name = "ebs-plugin"
    · simp [h, List.contains, List.elem_iff]
    · simp [h]
  · intro pods g
    cases pods with
    | nil => rfl
    | cons p rest =>
      simp only [debugLogsTestPasses, List.map_cons, List.isEmpty_cons,
        Bool.not_false, Bool.true_and]
      exact all_mapPodContainers_alter g (p :: rest)

/-! ## The release script (part_001, hack/release-scripts/get-latest-sidecar-images) -/

/-- A shell command as it occurs in the script: its line number and text. -/
structure ShellCommand where
  lineNo : Nat
  text : String
deriving DecidableEq, Repr

/-- `error_handler` (part_001 lines 45-48): the message printed to stderr.
The printf format is
"Error occurred in script: %s, at line: %s. Command: %s. Error: %s\n",
applied to `$1`, `$2`, `$BASH_COMMAND` and `$3`. -/
def error_handler_message (arg1 arg2 bashCommand arg3 : String) : String :=
  "Error occurred in script: " ++ arg1 ++ ", at line: " ++ arg2 ++ ". Command: "
    ++ bashCommand ++ ". Error: " ++ arg3 ++ "\n"

/-- The ERR trap (part_001 line 50): `error_handler ${LINENO} $? "$BASH_COMMAND"`,
so `$1` is the line number, `$2` is the exit status, and both `$BASH_COMMAND`
and `$3` are the failing command's text. -/
def errTrapMessage (c : ShellCommand) (exitStatus : Nat) : String :=
  error_handler_message (toString c.lineNo) (toString exitStatus) c.text c.text

/-- Observable outcome of running a command sequence under
`set -euo pipefail` with the script's ERR trap. -/
structure ScriptRun where
  executed : List ShellCommand
  stderr : List String
  exitCode : Nat
deriving DecidableEq, Repr

/-- Run commands in order under `set -e` with the ERR trap installed: each
command runs once; on the first non-zero exit status the trap fires
(printing `errTrapMessage`) and the handler's `exit 1` terminates the
script; otherwise the run continues to the next command. -/
def runWithErrTrap (exec : ShellCommand → Nat) : List ShellCommand → ScriptRun
  | [] => { executed := [], stderr := [], exitCode := 0 }
  | c :: rest =>
    let code := exec c
    if code = 0 then
      let r := runWithErrTrap exec rest
      { r with executed := c :: r.executed }
    else
      { executed := [c], stderr := [errTrapMessage c code], exitCode := 1 }

/-- `msg` textually reports `part`: `part` occurs in `msg` as a substring. -/
def stringMentions (msg part : String) : Prop :=
  ∃ u v, msg = u ++ part ++ v

/-- The message built by `error_handler` from the ERR trap's arguments
mentions both the failing command's text and its line number. -/
theorem errTrapMessage_mentions (c : ShellCommand) (code : Nat) :
    stringMentions (errTrapMessage c code) c.text
      ∧ stringMentions (errTrapMessage c code) (toString c.lineNo) := by
  constructor
  · refine ⟨"Error occurred in script: " ++ toString c.lineNo ++ ", at line: "
      ++ toString code ++ ". Command: ", ". Error: " ++ c.text ++ "\n", ?_⟩
    simp [errTrapMessage, error_handler_message, String.append_assoc]
  · refine ⟨"Error occurred in script: ", ", at line: " ++ toString code
      ++ ". Command: " ++ c.text ++ ". Error: " ++ c.text ++ "\n", ?_⟩
    simp [errTrapMessage, error_handler_message, String.append_assoc]

/-- C4: if any command of the script fails (every command before it having
succeeded), the ERR trap invokes `error_handler`, the printed message
mentions the failing command and its line number, and the script terminates
with a non-zero exit status. -/
theorem err_trap_reports_and_exits_nonzero (exec : ShellCommand → Nat)
    (pre : List ShellCommand) (c : ShellCommand) (post : List ShellCommand)
    (hpre : ∀ p ∈ pre, exec p = 0) (hc : exec c ≠ 0) :
    (runWithErrTrap exec (pre ++ c :: post)).exitCode ≠ 0
      ∧ ∃ msg ∈ (runWithErrTrap exec (pre ++ c :: post)).stderr,
          stringMentions msg c.text ∧ stringMentions msg (toString c.lineNo) := by
  induction pre with
  | nil =>
    simp only [List.nil_append, runWithErrTrap, if_neg hc]
    exact ⟨by decide, errTrapMessage c (exec c), List.mem_singleton.mpr rfl,
      errTrapMessage_mentions c (exec c)⟩
  | cons p pre ih =>
    have hp : exec p = 0 := hpre p (List.mem_cons_self p pre)
    have ih' := ih (fun q hq => hpre q (List.mem_cons_of_mem p hq))
    simp only [List.cons_append, runWithErrTrap, if_pos hp]
    exact ih'

/-- C4 witness: a concrete failing command at line 56 is reported and the
run exits non-zero. -/
theorem err_trap_reports_and_exits_nonzero_witness :
    (runWithErrTrap (fun c => if c.lineNo = 56 then 1 else 0)
        ([⟨34, "check_dependencies"⟩] ++ ⟨56, "cp template output"⟩ :: [])).exitCode ≠ 0
      ∧ ∃ msg ∈ (runWithErrTrap (fun c => if c.lineNo = 56 then 1 else 0)
          ([⟨34, "check_dependencies"⟩] ++ ⟨56, "cp template output"⟩ :: [])).stderr,
          stringMentions msg "cp template output" ∧ stringMentions msg (toString 56) :=
  err_trap_reports_and_exits_nonzero (fun c => if c.lineNo = 56 then 1 else 0)
    [⟨34, "check_dependencies"⟩] ⟨56, "cp template output"⟩ []
    (by intro p hp; simp at hp; simp [hp]) (by decide)

/-! ## Whole-run model of the release script: traps and the temporary file -/

/-- The script's dependency list (part_001 line 35): yq, git, crane. -/
def releaseScriptDependencies : List String := ["yq", "git", "crane"]

/-- `check_dependencies` (part_001 lines 34-43): the first dependency whose
command is not available, if any; for it the script logs and runs the
explicit `exit 1`. -/
def check_dependencies (available : String → Bool) : Option String :=
  releaseScriptDependencies.find? (fun d => !(available d))

/-- Shell state relevant to the temporary file: whether the `mktemp` file
exists and whether the EXIT trap `rm $tmp_filename` (line 53) is installed. -/
structure ShellTrapState where
  tmpFileExists : Bool
  exitTrapRemovesTmp : Bool
deriving DecidableEq, Repr

/-- Final outcome of a whole run of the release script. -/
structure ReleaseScriptOutcome where
  exitCode : Nat
  tmpFileRemains : Bool
deriving DecidableEq, Repr

/-- Terminate the shell with `code`: bash runs the EXIT trap, if installed,
on every termination path (normal end of script, explicit `exit`, and the
`exit 1` performed by the ERR trap's handler alike). -/
def scriptTerminate (s : ShellTrapState) (code : Nat) : ReleaseScriptOutcome :=
  let s' := if s.exitTrapRemovesTmp then { s with tmpFileExists := false } else s
  { exitCode := code, tmpFileRemains := s'.tmpFileExists }

/-- A whole run of the release script (part_001): line 27 creates the
temporary file; line 50 installs the ERR trap and line 53 the EXIT trap
(both before `main` is invoked on line 89); `main` (lines 83-87) runs
`check_dependencies` — whose missing-dependency branch is an explicit
`exit 1` — and then the commands of `generate_image_digests_file` and
`update_sidecars_source_of_truth` under `set -e` with the ERR trap.
`bodyCommands` is the dynamic command sequence of that body and `exec`
gives each command's exit status. -/
def runReleaseScript (available : String → Bool) (exec : ShellCommand → Nat)
    (bodyCommands : List ShellCommand) : ReleaseScriptOutcome :=
  let s0 : ShellTrapState := { tmpFileExists := true, exitTrapRemovesTmp := false }
  let s1 : ShellTrapState := { s0 with exitTrapRemovesTmp := true }
  match check_dependencies available with
  | some _ => scriptTerminate s1 1
  | none => scriptTerminate s1 (runWithErrTrap exec bodyCommands).exitCode

/-- C10: on every termination path of the release script — dependency-check
`exit 1`, ERR-trap exit after a failed command, or successful completion —
the EXIT trap removes the `mktemp` file, so no temporary file remains; and
the exit code is 1 on the dependency path and otherwise the ERR-trap runner's
code. -/
theorem release_script_tmpfile_always_removed (available : String → Bool)
    (exec : ShellCommand → Nat) (bodyCommands : List ShellCommand) :
    (runReleaseScript available exec bodyCommands).tmpFileRemains = false
      ∧ (runReleaseScript available exec bodyCommands).exitCode
          = (match check_dependencies available with
             | some _ => 1
             | none => (runWithErrTrap exec bodyCommands).exitCode) := by
  cases h : check_dependencies available with
  | some d => simp [runReleaseScript, scriptTerminate, h]
  | none => simp [runReleaseScript, scriptTerminate, h]

/-! ## The sidecar tag/digest update (part_001 lines 59-81) -/

/-- `pat` occurs as a contiguous sublist of the second list. -/
def charListHasSub (pat : List Char) : List Char → Bool
  | [] => pat.isEmpty
  | c :: rest => pat.isPrefixOf (c :: rest) || charListHasSub pat rest

/-- A tag is dropped by `sed '/latest/d'` (line 63) iff the line contains
the substring "latest". -/
def containsLatest (tag : String) : Bool :=
  charListHasSub "latest".data tag.data

/-- `crane_get_latest_image_tag` (part_001 lines 59-64):
`TAG=$(crane ls "$image" | sed '/latest/d' | sort -V | tail -1)`.
`craneLs` is the external `crane ls` tool; `versionLe` is the comparator
used by GNU `sort -V` (version sort), kept as a parameter of the model;
`tail -1` of an empty sorted list yields the empty string. -/
def crane_get_latest_image_tag (versionLe : String → String → Bool)
    (craneLs : String → List String) (image : String) : String :=
  (((craneLs image).filter (fun t => !(containsLatest t))).mergeSort versionLe).getLastD ""

/-- One sidecar entry of the generated image-digests file: its image
reference and the `tag` and `manifestDigest` fields the script writes. -/
structure SidecarEntry where
  image : String
  tag : String
  manifestDigest : String
deriving DecidableEq, Repr

/-- One iteration of the `update_sidecars_source_of_truth` loop (part_001
lines 69-80): `yq ".sidecars.$sidecar.tag = env(TAG)"` with `TAG` from
`crane_get_latest_image_tag` on the entry's image, then
`yq ".sidecars.$sidecar.manifestDigest = env(DIGEST)"` with
`DIGEST=$(crane digest "$image:$TAG")`. -/
def updateSidecarEntry (versionLe : String → String → Bool)
    (craneLs : String → List String) (craneDigest : String → String)
    (e : SidecarEntry) : SidecarEntry :=
  let tag := crane_get_latest_image_tag versionLe craneLs e.image
  { e with tag := tag, manifestDigest := craneDigest (e.image ++ ":" ++ tag) }

/-- `update_sidecars_source_of_truth` (part_001 lines 66-81): iterate over
the keys listed under `.sidecars` of the output file and update each entry
in place. -/
def update_sidecars_source_of_truth (versionLe : String → String → Bool)
    (craneLs : String → List String) (craneDigest : String → String)
    (sidecarsFile : List (String × SidecarEntry)) : List (String × SidecarEntry) :=
  sidecarsFile.map
    (fun kv => (kv.fst, updateSidecarEntry versionLe craneLs craneDigest kv.snd))

/-- In a list that is pairwise related by a reflexive `le`, the last element
(with default "") is a member and an upper bound. -/
theorem getLastD_pairwise_max (le : String → String → Bool)
    (href : ∀ a, le a a = true) :
    ∀ l : List String, l.Pairwise (fun a b => le a b = true) → l ≠ [] →
      l.getLastD "" ∈ l ∧ ∀ x ∈ l, le x (l.getLastD "") = true := by
  intro l
  induction l with
  | nil => intro _ h; exact absurd rfl h
  | cons a rest ih =>
    intro hpw _
    have hhead := (List.pairwise_cons.mp hpw).1
    have hpw' := (List.pairwise_cons.mp hpw).2
    cases rest with
    | nil =>
      refine ⟨List.mem_singleton.mpr rfl, ?_⟩
      intro x hx
      rcases List.mem_singleton.mp hx with rfl
      exact href x
    | cons b rest' =>
      have ih' := ih hpw' (by simp)
      have hlast : (a :: b :: rest').getLastD "" = (b :: rest').getLastD "" := by
        simp [List.getLastD_cons]
      refine ⟨?_, ?_⟩
      · rw [hlast]
        exact List.mem_cons_of_mem a ih'.1
      · intro x hx
        rw [hlast]
        rcases List.mem_cons.mp hx with rfl | hx'
        · exact hhead _ ih'.1
        · exact ih'.2 x hx'

/-- For a total transitive comparator, `tail -1` of `sort -V` output (the
last element of the mergeSort) is a member of the input list and an upper
bound of it. -/
theorem mergeSort_getLastD_max (le : String → String → Bool)
    (htrans : ∀ a b c, le a b = true → le b c = true → le a c = true)
    (htotal : ∀ a b, (le a b || le b a) = true)
    (l : List String) (hne : l ≠ []) :
    (l.mergeSort le).getLastD "" ∈ l
      ∧ ∀ x ∈ l, le x ((l.mergeSort le).getLastD "") = true := by
  have href : ∀ a, le a a = true := by
    intro a
    have h := htotal a a
    simpa using h
  have hpw := List.sorted_mergeSort htrans htotal l
  have hperm := List.mergeSort_perm l le
  have hne' : l.mergeSort le ≠ [] := by
    intro h
    exact hne (List.Perm.eq_nil (h ▸ hperm).symm)
  obtain ⟨hmem, hmax⟩ := getLastD_pairwise_max le href (l.mergeSort le) hpw hne'
  exact ⟨hperm.mem_iff.mp hmem, fun x hx => hmax x (hperm.mem_iff.mpr hx)⟩

/-- C5: for every sidecar entry of the updated file, provided the version
comparator is transitive and total, the written `tag` is the greatest tag
under version sort among the image's listed tags once every tag containing
"latest" is removed (when any such tag remains), and the written
`manifestDigest` is the digest reported by `crane digest` for the resulting
`image:tag` reference. -/
theorem sidecars_tag_and_digest_spec (versionLe : String → String → Bool)
    (craneLs : String → List String) (craneDigest : String → String)
    (htrans : ∀ a b c, versionLe a b = true → versionLe b c = true → versionLe a c = true)
    (htotal : ∀ a b, (versionLe a b || versionLe b a) = true)
    (sidecarsFile : List (String × SidecarEntry)) :
    ∀ kv ∈ update_sidecars_source_of_truth versionLe craneLs craneDigest sidecarsFile,
      ((craneLs kv.snd.image).filter (fun t => !(containsLatest t)) ≠ [] →
          kv.snd.tag ∈ (craneLs kv.snd.image).filter (fun t => !(containsLatest t))
            ∧ ∀ t ∈ (craneLs kv.snd.image).filter (fun t => !(containsLatest t)),
                versionLe t kv.snd.tag = true)
        ∧ kv.snd.manifestDigest = craneDigest (kv.snd.image ++ ":" ++ kv.snd.tag) := by
  intro kv hkv
  obtain ⟨⟨k, e⟩, hmem, rfl⟩ := List.mem_map.mp hkv
  constructor
  · intro hne
    exact mergeSort_getLastD_max versionLe htrans htotal
      ((craneLs e.image).filter (fun t => !(containsLatest t))) hne
  · rfl

/-- Fixture `crane ls` oracle for the witness: three tags, one of which
contains "latest" and is dropped by the sed filter. -/
def craneLsFixture : String → List String :=
  fun _ => ["latest", "v1.9.0"]

/-- Fixture `crane digest` oracle for the witness. -/
def craneDigestFixture : String → String :=
  fun ref => "sha256:digest-of-" ++ ref

/-- Fixture sidecar entry (before update). -/
def sidecarEntryFixture : SidecarEntry :=
  { image := "registry.example.com/csi-provisioner", tag := "", manifestDigest := "" }

/-- Fixture sidecars file with one key. -/
def sidecarsFileFixture : List (String × SidecarEntry) :=
  [("provisioner", sidecarEntryFixture)]

/-- A comparator that accepts every pair; trivially transitive and total. -/
def constTrueLe : String → String → Bool := fun _ _ => true

/-- The (key, entry) pair produced by the update on the fixture file. -/
def sidecarPairFixture : String × SidecarEntry :=
  ("provisioner", updateSidecarEntry constTrueLe craneLsFixture craneDigestFixture
    sidecarEntryFixture)

/-- C5 witness: on the fixture file, the updated provisioner entry's tag is
among the non-"latest" tags, is an upper bound of them, and its
manifestDigest is the crane digest of `image:tag`. -/
theorem sidecars_tag_and_digest_spec_witness :
    (sidecarPairFixture.snd.tag
        ∈ (craneLsFixture sidecarPairFixture.snd.image).filter
            (fun t => !(containsLatest t))
      ∧ constTrueLe "v1.9.0" sidecarPairFixture.snd.tag = true)
      ∧ sidecarPairFixture.snd.manifestDigest
          = craneDigestFixture
              (sidecarPairFixture.snd.image ++ ":" ++ sidecarPairFixture.snd.tag) := by
  have h := sidecars_tag_and_digest_spec constTrueLe craneLsFixture craneDigestFixture
    (fun _ _ _ _ _ => rfl) (fun _ _ => rfl) sidecarsFileFixture
    sidecarPairFixture (List.mem_singleton.mpr rfl)
  have hne : (craneLsFixture sidecarPairFixture.snd.image).filter
      (fun t => !(containsLatest t)) ≠ [] := by decide
  exact ⟨⟨(h.1 hne).1, (h.1 hne).2 "v1.9.0" (by decide)⟩, h.2⟩

/-! ## Straight-line fail-fast execution (no retries, no repetition) -/

/-- One step of a Ginkgo test body: issue a Kubernetes API call, or evaluate
an `Expect` assertion. -/
inductive TestStep
  | apiCall (c : K8sCallSite)
  | assertion
deriving DecidableEq, Repr

/-- The API calls a step list would issue, in program order. -/
def callsOf : List TestStep → List K8sCallSite
  | [] => []
  | TestStep.apiCall c :: rest => c :: callsOf rest
  | TestStep.assertion :: rest => callsOf rest

/-- Fail-fast execution of a straight-line test body: an `apiCall` step
issues its call once and continues; an `Expect` assertion either passes
(continue) or fails, in which case the assertion library stops the test at
once and nothing further runs. `assertOk` gives each step's assertion
outcome by position; the result is the trace of issued calls. -/
def runFailFast (assertOk : Nat → Bool) : Nat → List TestStep → List K8sCallSite
  | _, [] => []
  | i, TestStep.apiCall c :: rest => c :: runFailFast assertOk (i + 1) rest
  | i, TestStep.assertion :: rest =>
      if assertOk i then runFailFast assertOk (i + 1) rest else []

/-- A container port as inspected by the metrics tests: name and number. -/
structure PortSpec where
  portName : String
  portNumber : Nat
deriving DecidableEq, Repr

/-- A container as inspected by the controllerMetrics test. -/
structure MetricsContainer where
  name : String
  ports : List PortSpec
deriving DecidableEq, Repr

/-- A pod as inspected by the controllerMetrics test. -/
structure MetricsPod where
  containers : List MetricsContainer
deriving DecidableEq, Repr

/-- The port scan of the controllerMetrics test (part_000 lines 238-248):
some container exposes a port named "metrics" or numbered 3301. -/
def podHasMetricsPort (p : MetricsPod) : Bool :=
  p.containers.any (fun c =>
    c.ports.any (fun port => port.portName == "metrics" || port.portNumber == 3301))

/-- The controllerMetrics test body (part_000 lines 229-250) as a function
of the one List response: the pair of (number of Kubernetes API calls
issued, verdict). The body issues its single Pods List call, then asserts
no error, non-emptiness, and the per-pod port check; it contains no loop,
retry, poll or sleep around the API call. -/
def runControllerMetricsTest (listPods : Except String (List MetricsPod)) :
    Nat × Bool :=
  match listPods with
  | Except.error _ => (1, false)
  | Except.ok pods => (1, !pods.isEmpty && pods.all podHasMetricsPort)

/-- The controllerMetrics test body as a straight-line step list: one API
call followed by its assertions (error check, non-empty check, per-pod port
check). -/
def controllerMetricsTestSteps : List TestStep :=
  [ TestStep.apiCall (listPodsKubeSystem "controllerMetrics" "app=ebs-csi-controller")
  , TestStep.assertion
  , TestStep.assertion
  , TestStep.assertion ]

/-- The call sites of a given parameter test, in program order. -/
def testCallSites (t : String) : List K8sCallSite :=
  parameterE2eK8sCalls.filter (fun c => c.test == t)

/-- The fail-fast trace is a prefix of the program's calls. -/
theorem runFailFast_trace_prefix (assertOk : Nat → Bool) :
    ∀ (i : Nat) (steps : List TestStep),
      ∃ t, runFailFast assertOk i steps ++ t = callsOf steps := by
  intro i steps
  induction steps generalizing i with
  | nil => exact ⟨[], rfl⟩
  | cons s rest ih =>
    cases s with
    | apiCall c =>
      obtain ⟨t, ht⟩ := ih (i + 1)
      exact ⟨t, by simp [runFailFast, callsOf, ht]⟩
    | assertion =>
      by_cases h : assertOk i = true
      · obtain ⟨t, ht⟩ := ih (i + 1)
        exact ⟨t, by simp [runFailFast, callsOf, h, ht]⟩
      · have hfalse : assertOk i = false := by simpa using h
        exact ⟨callsOf rest, by simp [runFailFast, callsOf, hfalse]⟩

/-- When every assertion passes, the fail-fast trace is exactly the
program's calls: each API call is issued exactly once, in program order. -/
theorem runFailFast_all_pass :
    ∀ (i : Nat) (steps : List TestStep),
      runFailFast (fun _ => true) i steps = callsOf steps := by
  intro i steps
  induction steps generalizing i with
  | nil => rfl
  | cons s rest ih =>
    cases s with
    | apiCall c => simp [runFailFast, callsOf, ih]
    | assertion => simp [runFailFast, callsOf, ih]

/-- The commands the ERR-trap runner executes form a prefix of the script's
command sequence: each command runs at most once, in program order, and
nothing runs after the first failure. -/
theorem runWithErrTrap_executed_prefix (exec : ShellCommand → Nat) :
    ∀ cmds : List ShellCommand,
      ∃ t, (runWithErrTrap exec cmds).executed ++ t = cmds := by
  intro cmds
  induction cmds with
  | nil => exact ⟨[], rfl⟩
  | cons c rest ih =>
    by_cases h : exec c = 0
    · obtain ⟨t, ht⟩ := ih
      exact ⟨t, by simp [runWithErrTrap, h, ht]⟩
    · exact ⟨rest, by simp [runWithErrTrap, h]⟩

/-- C6: absence of retry/poll/sleep behaviour in the embedded material.
(i) The controllerMetrics test body issues exactly one Kubernetes API call
whatever the response; (ii) its step list contains that one call and no
other; (iii) any straight-line test body's trace under fail-fast execution
is a prefix of its program-order calls, so no call is ever reissued and a
failed assertion stops the test with no recovery step; (iv) when every
assertion passes each call is issued exactly once; (v) no parameter test's
transcribed call inventory repeats a call site; (vi) the release script's
runner executes a prefix of its command sequence, so no command is retried
and nothing runs after the first failure. -/
theorem no_retry_single_issue_spec :
    (∀ listPods : Except String (List MetricsPod),
        (runControllerMetricsTest listPods).fst = 1)
    ∧ callsOf controllerMetricsTestSteps
        = [listPodsKubeSystem "controllerMetrics" "app=ebs-csi-controller"]
    ∧ (∀ (assertOk : Nat → Bool) (i : Nat) (steps : List TestStep),
        ∃ t, runFailFast assertOk i steps ++ t = callsOf steps)
    ∧ (∀ (i : Nat) (steps : List TestStep),
        runFailFast (fun _ => true) i steps = callsOf steps)
    ∧ ((parameterE2eK8sCalls.map (fun c => c.test)).all
        (fun t => decide (testCallSites t).Nodup) = true)
    ∧ (∀ (exec : ShellCommand → Nat) (cmds : List ShellCommand),
        ∃ t, (runWithErrTrap exec cmds).executed ++ t = cmds) := by
  refine ⟨?_, rfl, runFailFast_trace_prefix, runFailFast_all_pass, by decide,
    runWithErrTrap_executed_prefix⟩
  intro listPods
  cases listPods <;> rfl

/-! ## The Makefile target e2e/parameters (part_002 lines 135-230) -/

/-- Outcome of evaluating the `e2e/parameters` recipe: either `$(error ...)`
stops make with a message, or the recipe invokes `./hack/e2e/run.sh` once
with the given `GINKGO_FOCUS` value. -/
inductive MakeOutcome
  | error (msg : String)
  | run (ginkgoFocus : String)
deriving DecidableEq, Repr

/-- The param names of the `standard` set, as they appear in its
`GINKGO_FOCUS` alternation (part_002 line 143). -/
def standardParams : List String :=
  [ "extraCreateMetadata", "k8sTagClusterId", "extraVolumeTags", "controllerMetrics"
  , "nodeMetrics", "batching", "defaultFsType", "controllerLoggingFormat"
  , "nodeLoggingFormat", "controllerLogLevel", "nodeLogLevel", "provisionerLogLevel"
  , "attacherLogLevel", "snapshotterLogLevel", "resizerLogLevel"
  , "nodeDriverRegistrarLogLevel", "storageClasses", "volumeSnapshotClasses"
  , "defaultStorageClass", "snapshotterForceEnable", "controllerUserAgentExtra"
  , "controllerEnablePrometheusAnnotations", "nodeEnablePrometheusAnnotations"
  , "nodeKubeletPath", "nodeTolerateAllTaints", "controllerPodDisruptionBudget"
  , "provisionerLeaderElection", "attacherLeaderElection", "resizerLeaderElection" ]

/-- The param names of the `infra` set (part_002 line 216). -/
def infraParams : List String :=
  [ "controllerReplicaCount", "controllerPriorityClassName", "controllerResources"
  , "controllerPodAnnotations", "controllerPodLabels", "controllerDeploymentAnnotations"
  , "controllerRevisionHistoryLimit", "nodePriorityClassName", "nodeResources"
  , "nodePodAnnotations", "nodeDaemonSetAnnotations", "nodeRevisionHistoryLimit"
  , "provisionerResources", "attacherResources", "snapshotterResources"
  , "resizerResources", "nodeDriverRegistrarResources", "livenessProbeResources"
  , "customLabels", "controllerEnv", "nodeEnv", "controllerTopologySpreadConstraints"
  , "controllerSecurityContext", "nodeSecurityContext"
  , "controllerContainerSecurityContext", "controllerVolumes", "controllerVolumeMounts"
  , "nodeVolumes", "nodeVolumeMounts", "controllerDnsConfig", "nodeDnsConfig"
  , "controllerInitContainers", "nodeInitContainers", "imagePullPolicy" ]

/-- The param names of each recognized parameter set (the Makefile's own
grouping, part_002 lines 140-227). -/
def paramsOfSet (s : String) : List String :=
  if s = "standard" then standardParams
  else if s = "volume-modification" then
    ["volumeModification", "volumemodifierLogLevel", "volumemodifierLeaderElection"]
  else if s = "node-config" then
    ["reservedVolumeAttachments", "hostNetwork", "nodeDisableMutation"
    , "nodeTerminationGracePeriod"]
  else if s = "volume-attach-limit" then ["volumeAttachLimit"]
  else if s = "storage-classes" then
    ["storageClasses", "volumeSnapshotClasses", "defaultStorageClass"]
  else if s = "debug" then ["debugLogs", "sdkDebugLog"]
  else if s = "metadata-labeler" then ["metadataLabeler", "metadataLabelerLogLevel"]
  else if s = "legacy-compat" then ["useOldCSIDriver", "legacyXFS"]
  else if s = "selinux" then ["selinux"]
  else if s = "fips" then ["fips"]
  else if s = "infra" then infraParams
  else if s = "update-strategy" then ["controllerUpdateStrategy", "nodeUpdateStrategy"]
  else []

/-- The recognized PARAM_SET values, i.e. the `ifeq` branches of the target
(part_002 lines 140-227). -/
def recognizedParamSets : List String :=
  [ "standard", "volume-modification", "node-config", "volume-attach-limit"
  , "storage-classes", "debug", "metadata-labeler", "legacy-compat", "selinux"
  , "fips", "infra", "update-strategy" ]

/-- The common prefix of every focus regex of the target. -/
def ginkgoFocusStem : String :=
  "\\[ebs-csi-e2e\\] \\[single-az\\] \\[param:"

/-- Join param names with the regex alternation bar. -/
def joinAlternation : List String → String
  | [] => ""
  | [p] => p
  | p :: rest => p ++ "|" ++ joinAlternation rest

/-- The focus regex the target builds for a list of param names: a single
name is spliced directly, several names become a parenthesized
alternation. -/
def renderGinkgoFocus (params : List String) : String :=
  match params with
  | [p] => ginkgoFocusStem ++ p ++ "\\]"
  | ps => ginkgoFocusStem ++ "(" ++ joinAlternation ps ++ ")\\]"

/-- The `e2e/parameters` Makefile target (part_002 lines 135-230).
`none` models an undefined `PARAM_SET` (`ifndef PARAM_SET` raises
`$(error ...)`); each `ifeq` branch exports its environment and invokes
`./hack/e2e/run.sh` exactly once with the transcribed `GINKGO_FOCUS`
literal; the final `else` raises `$(error Unknown PARAM_SET ...)`. -/
def e2eParametersTarget (paramSet : Option String) : MakeOutcome :=
  match paramSet with
  | none =>
    MakeOutcome.error
      "PARAM_SET is required. Options: standard, volume-modification, node-config, storage-classes, debug, metadata-labeler, legacy-compat, selinux, fips"
  | some s =>
    if s = "standard" then
      MakeOutcome.run
        "\\[ebs-csi-e2e\\] \\[single-az\\] \\[param:(extraCreateMetadata|k8sTagClusterId|extraVolumeTags|controllerMetrics|nodeMetrics|batching|defaultFsType|controllerLoggingFormat|nodeLoggingFormat|controllerLogLevel|nodeLogLevel|provisionerLogLevel|attacherLogLevel|snapshotterLogLevel|resizerLogLevel|nodeDriverRegistrarLogLevel|storageClasses|volumeSnapshotClasses|defaultStorageClass|snapshotterForceEnable|controllerUserAgentExtra|controllerEnablePrometheusAnnotations|nodeEnablePrometheusAnnotations|nodeKubeletPath|nodeTolerateAllTaints|controllerPodDisruptionBudget|provisionerLeaderElection|attacherLeaderElection|resizerLeaderElection)\\]"
    else if s = "volume-modification" then
      MakeOutcome.run
        "\\[ebs-csi-e2e\\] \\[single-az\\] \\[param:(volumeModification|volumemodifierLogLevel|volumemodifierLeaderElection)\\]"
    else if s = "node-config" then
      MakeOutcome.run
        "\\[ebs-csi-e2e\\] \\[single-az\\] \\[param:(reservedVolumeAttachments|hostNetwork|nodeDisableMutation|nodeTerminationGracePeriod)\\]"
    else if s = "volume-attach-limit" then
      MakeOutcome.run
        "\\[ebs-csi-e2e\\] \\[single-az\\] \\[param:volumeAttachLimit\\]"
    else if s = "storage-classes" then
      MakeOutcome.run
        "\\[ebs-csi-e2e\\] \\[single-az\\] \\[param:(storageClasses|volumeSnapshotClasses|defaultStorageClass)\\]"
    else if s = "debug" then
      MakeOutcome.run
        "\\[ebs-csi-e2e\\] \\[single-az\\] \\[param:(debugLogs|sdkDebugLog)\\]"
    else if s = "metadata-labeler" then
      MakeOutcome.run
        "\\[ebs-csi-e2e\\] \\[single-az\\] \\[param:(metadataLabeler|metadataLabelerLogLevel)\\]"
    else if s = "legacy-compat" then
      MakeOutcome.run
        "\\[ebs-csi-e2e\\] \\[single-az\\] \\[param:(useOldCSIDriver|legacyXFS)\\]"
    else if s = "selinux" then
      MakeOutcome.run
        "\\[ebs-csi-e2e\\] \\[single-az\\] \\[param:selinux\\]"
    else if s = "fips" then
      MakeOutcome.run
        "\\[ebs-csi-e2e\\] \\[single-az\\] \\[param:fips\\]"
    else if s = "infra" then
      MakeOutcome.run
        "\\[ebs-csi-e2e\\] \\[single-az\\] \\[param:(controllerReplicaCount|controllerPriorityClassName|controllerResources|controllerPodAnnotations|controllerPodLabels|controllerDeploymentAnnotations|controllerRevisionHistoryLimit|nodePriorityClassName|nodeResources|nodePodAnnotations|nodeDaemonSetAnnotations|nodeRevisionHistoryLimit|provisionerResources|attacherResources|snapshotterResources|resizerResources|nodeDriverRegistrarResources|livenessProbeResources|customLabels|controllerEnv|nodeEnv|controllerTopologySpreadConstraints|controllerSecurityContext|nodeSecurityContext|controllerContainerSecurityContext|controllerVolumes|controllerVolumeMounts|nodeVolumes|nodeVolumeMounts|controllerDnsConfig|nodeDnsConfig|controllerInitContainers|nodeInitContainers|imagePullPolicy)\\]"
    else if s = "update-strategy" then
      MakeOutcome.run
        "\\[ebs-csi-e2e\\] \\[single-az\\] \\[param:(controllerUpdateStrategy|nodeUpdateStrategy)\\]"
    else
      MakeOutcome.error
        ("Unknown PARAM_SET: " ++ s ++ ". Options: standard, volume-modification, node-config, volume-attach-limit, storage-classes, debug, infra, update-strategy, metadata-labeler, legacy-compat, selinux, fips")

set_option maxRecDepth 100000 in
/-- C7: the `e2e/parameters` target errors when `PARAM_SET` is undefined and
when it is not a recognized parameter-set name; for each recognized name it
invokes the run script exactly once, and its `GINKGO_FOCUS` regex is exactly
the rendering of that set's own `[param:...]` names (a single name, or a
parenthesized alternation of precisely the set's names). -/
theorem e2e_parameters_target_spec :
    (e2eParametersTarget none
        = MakeOutcome.error
            "PARAM_SET is required. Options: standard, volume-modification, node-config, storage-classes, debug, metadata-labeler, legacy-compat, selinux, fips")
    ∧ (∀ s, s ∉ recognizedParamSets →
        e2eParametersTarget (some s)
          = MakeOutcome.error
              ("Unknown PARAM_SET: " ++ s ++ ". Options: standard, volume-modification, node-config, volume-attach-limit, storage-classes, debug, infra, update-strategy, metadata-labeler, legacy-compat, selinux, fips"))
    ∧ (∀ s ∈ recognizedParamSets,
        e2eParametersTarget (some s)
          = MakeOutcome.run (renderGinkgoFocus (paramsOfSet s))) := by
  refine ⟨rfl, ?_, ?_⟩
  · intro s hs
    simp only [recognizedParamSets, List.mem_cons, List.not_mem_nil, or_false,
      not_or] at hs
    obtain ⟨h1, h2, h3, h4, h5, h6, h7, h8, h9, h10, h11, h12⟩ := hs
    simp [e2eParametersTarget, h1, h2, h3, h4, h5, h6, h7, h8, h9, h10, h11, h12]
  · intro s hs
    fin_cases hs <;> decide

/-- C7 witness: an unrecognized value errors, and the `fips` set runs once
with the rendering of its single param name. -/
theorem e2e_parameters_target_spec_witness :
    (e2eParametersTarget (some "bogus")
        = MakeOutcome.error
            ("Unknown PARAM_SET: " ++ "bogus" ++ ". Options: standard, volume-modification, node-config, volume-attach-limit, storage-classes, debug, infra, update-strategy, metadata-labeler, legacy-compat, selinux, fips"))
    ∧ e2eParametersTarget (some "fips")
        = MakeOutcome.run (renderGinkgoFocus (paramsOfSet "fips")) :=
  ⟨e2e_parameters_target_spec.2.1 "bogus" (by decide),
    e2e_parameters_target_spec.2.2 "fips" (by decide)⟩

/-! ## The generated mock client (pkg/driver/mock_k8s_client.go) -/

/-- A Go interface value: either the nil interface (the zero value of every
interface type) or a non-nil value with a dynamic type. -/
inductive GoValue
  | nilInterface
  | value (dynType : String)
deriving DecidableEq, Repr

/-- Result of a Go expression that can panic. -/
inductive GoResult
  | ok (v : GoValue)
  | panicked (msg : String)
deriving DecidableEq, Repr

/-- The two-valued (comma-ok) type assertion `x, ok := v.(T)`: never panics;
when the operand is nil or its dynamic type does not implement `T`, it
yields the zero value of `T` (the nil interface) and `false`.  `impl` is
Go's implements relation between dynamic types and interface types. -/
def typeAssertTwoValued (impl : String → String → Bool) (v : GoValue)
    (ty : String) : GoValue × Bool :=
  match v with
  | GoValue.nilInterface => (GoValue.nilInterface, false)
  | GoValue.value dynType =>
      if impl dynType ty then (v, true) else (GoValue.nilInterface, false)

/-- The single-valued type assertion `v.(T)`: panics on nil and on a
non-implementing dynamic type. -/
def typeAssertOneValued (impl : String → String → Bool) (v : GoValue)
    (ty : String) : GoResult :=
  match v with
  | GoValue.nilInterface =>
      GoResult.panicked "interface conversion: interface is nil"
  | GoValue.value dynType =>
      if impl dynType ty then GoResult.ok v
      else GoResult.panicked "interface conversion"

/-- One generated method of `MockKubernetesClient`: its name and the
interface type it returns. -/
structure MockMethod where
  methodName : String
  returnIface : String
deriving DecidableEq, Repr

/-- Every generated method of `MockKubernetesClient`
(mock_k8s_client.go lines 104-853), with the interface type of its
single return value (import aliases resolved to the package paths of the
typed clients). -/
def mockKubernetesClientMethods : List MockMethod :=
  [ ⟨"AdmissionregistrationV1", "AdmissionregistrationV1Interface"⟩
  , ⟨"AdmissionregistrationV1alpha1", "AdmissionregistrationV1alpha1Interface"⟩
  , ⟨"AdmissionregistrationV1beta1", "AdmissionregistrationV1beta1Interface"⟩
  , ⟨"AppsV1", "AppsV1Interface"⟩
  , ⟨"AppsV1beta1", "AppsV1beta1Interface"⟩
  , ⟨"AppsV1beta2", "AppsV1beta2Interface"⟩
  , ⟨"AuthenticationV1", "AuthenticationV1Interface"⟩
  , ⟨"AuthenticationV1alpha1", "AuthenticationV1alpha1Interface"⟩
  , ⟨"AuthenticationV1beta1", "AuthenticationV1beta1Interface"⟩
  , ⟨"AuthorizationV1", "AuthorizationV1Interface"⟩
  , ⟨"AuthorizationV1beta1", "AuthorizationV1beta1Interface"⟩
  , ⟨"AutoscalingV1", "AutoscalingV1Interface"⟩
  , ⟨"AutoscalingV2", "AutoscalingV2Interface"⟩
  , ⟨"AutoscalingV2beta1", "AutoscalingV2beta1Interface"⟩
  , ⟨"AutoscalingV2beta2", "AutoscalingV2beta2Interface"⟩
  , ⟨"BatchV1", "BatchV1Interface"⟩
  , ⟨"BatchV1beta1", "BatchV1beta1Interface"⟩
  , ⟨"CertificatesV1", "CertificatesV1Interface"⟩
  , ⟨"CertificatesV1alpha1", "CertificatesV1alpha1Interface"⟩
  , ⟨"CertificatesV1beta1", "CertificatesV1beta1Interface"⟩
  , ⟨"CoordinationV1", "CoordinationV1Interface"⟩
  , ⟨"CoordinationV1alpha1", "CoordinationV1alpha1Interface"⟩
  , ⟨"CoordinationV1beta1", "CoordinationV1beta1Interface"⟩
  , ⟨"CoreV1", "CoreV1Interface"⟩
  , ⟨"Discovery", "DiscoveryInterface"⟩
  , ⟨"DiscoveryV1", "DiscoveryV1Interface"⟩
  , ⟨"DiscoveryV1beta1", "DiscoveryV1beta1Interface"⟩
  , ⟨"EventsV1", "EventsV1Interface"⟩
  , ⟨"EventsV1beta1", "EventsV1beta1Interface"⟩
  , ⟨"ExtensionsV1beta1", "ExtensionsV1beta1Interface"⟩
  , ⟨"FlowcontrolV1", "FlowcontrolV1Interface"⟩
  , ⟨"FlowcontrolV1beta1", "FlowcontrolV1beta1Interface"⟩
  , ⟨"FlowcontrolV1beta2", "FlowcontrolV1beta2Interface"⟩
  , ⟨"FlowcontrolV1beta3", "FlowcontrolV1beta3Interface"⟩
  , ⟨"InternalV1alpha1", "InternalV1alpha1Interface"⟩
  , ⟨"NetworkingV1", "NetworkingV1Interface"⟩
  , ⟨"NetworkingV1alpha1", "NetworkingV1alpha1Interface"⟩
  , ⟨"NetworkingV1beta1", "NetworkingV1beta1Interface"⟩
  , ⟨"NodeV1", "NodeV1Interface"⟩
  , ⟨"NodeV1alpha1", "NodeV1alpha1Interface"⟩
  , ⟨"NodeV1beta1", "NodeV1beta1Interface"⟩
  , ⟨"PolicyV1", "PolicyV1Interface"⟩
  , ⟨"PolicyV1beta1", "PolicyV1beta1Interface"⟩
  , ⟨"RbacV1", "RbacV1Interface"⟩
  , ⟨"RbacV1alpha1", "RbacV1alpha1Interface"⟩
  , ⟨"RbacV1beta1", "RbacV1beta1Interface"⟩
  , ⟨"ResourceV1alpha3", "ResourceV1alpha3Interface"⟩
  , ⟨"SchedulingV1", "SchedulingV1Interface"⟩
  , ⟨"SchedulingV1alpha1", "SchedulingV1alpha1Interface"⟩
  , ⟨"SchedulingV1beta1", "SchedulingV1beta1Interface"⟩
  , ⟨"StorageV1", "StorageV1Interface"⟩
  , ⟨"StorageV1alpha1", "StorageV1alpha1Interface"⟩
  , ⟨"StorageV1beta1", "StorageV1beta1Interface"⟩
  , ⟨"StoragemigrationV1alpha1", "StoragemigrationV1alpha1Interface"⟩ ]

/-- The body every generated method shares (e.g. lines 105-110):
`ret := m.ctrl.Call(m, "<MethodName>"); ret0, _ := ret[0].(T); return ret0`.
`ctrlCall` models the gomock controller returning the recorded first return
value for the method's name. -/
def mockClientMethodBody (impl : String → String → Bool)
    (ctrlCall : String → GoValue) (meth : MockMethod) : GoValue :=
  (typeAssertTwoValued impl (ctrlCall meth.methodName) meth.returnIface).fst

/-- C9: every generated method of MockKubernetesClient delegates to the
gomock controller under the method's own name, and its comma-ok type
assertion makes it total: the recorded value is returned when it implements
the declared interface type, and otherwise — where the single-valued
assertion would panic — the method returns the nil interface (the zero
value) instead. -/
theorem mock_client_methods_total_spec (impl : String → String → Bool)
    (ctrlCall : String → GoValue) :
    ∀ meth ∈ mockKubernetesClientMethods,
      (mockClientMethodBody impl ctrlCall meth
          = match ctrlCall meth.methodName with
            | GoValue.nilInterface => GoValue.nilInterface
            | GoValue.value dynType =>
                if impl dynType meth.returnIface then GoValue.value dynType
                else GoValue.nilInterface)
        ∧ (∀ dynType, ctrlCall meth.methodName = GoValue.value dynType →
            impl dynType meth.returnIface = false →
              mockClientMethodBody impl ctrlCall meth = GoValue.nilInterface
                ∧ typeAssertOneValued impl (ctrlCall meth.methodName) meth.returnIface
                    = GoResult.panicked "interface conversion") := by
  intro meth _
  constructor
  · unfold mockClientMethodBody typeAssertTwoValued
    cases h : ctrlCall meth.methodName with
    | nilInterface => rfl
    | value dynType =>
      by_cases himpl : impl dynType meth.returnIface = true
      · simp [himpl]
      · have hfalse : impl dynType meth.returnIface = false := by simpa using himpl
        simp [hfalse]
  · intro dynType hval hfalse
    constructor
    · unfold mockClientMethodBody typeAssertTwoValued
      rw [hval]
      simp [hfalse]
    · unfold typeAssertOneValued
      rw [hval]
      simp [hfalse]

/-- C9 witness: for a concrete controller recording a value whose dynamic
type does not implement the declared interface, the CoreV1 method returns
the nil interface while the single-valued assertion would panic. -/
theorem mock_client_methods_total_spec_witness :
    (mockClientMethodBody (fun _ _ => false) (fun _ => GoValue.value "someStruct")
        ⟨"CoreV1", "CoreV1Interface"⟩
        = match (fun (_ : String) => GoValue.value "someStruct") "CoreV1" with
          | GoValue.nilInterface => GoValue.nilInterface
          | GoValue.value dynType =>
              if (fun (_ _ : String) => false) dynType "CoreV1Interface"
              then GoValue.value dynType
              else GoValue.nilInterface)
      ∧ (mockClientMethodBody (fun _ _ => false) (fun _ => GoValue.value "someStruct")
            ⟨"CoreV1", "CoreV1Interface"⟩ = GoValue.nilInterface
          ∧ typeAssertOneValued (fun _ _ => false) (GoValue.value "someStruct")
              "CoreV1Interface" = GoResult.panicked "interface conversion") := by
  have h := mock_client_methods_total_spec (fun _ _ => false)
    (fun _ => GoValue.value "someStruct") ⟨"CoreV1", "CoreV1Interface"⟩ (by decide)
  exact ⟨h.1, h.2 "someStruct" rfl rfl⟩
